import Mathlib

/-!
Verification development for the DocChat frontend (Next.js app) and the
spec-described Chunker of the multimodal document chat system.

The definitions below are shallow embeddings of the TypeScript source:
  * `ChatContent` / `sendMessage` / `renderSource` from the chat page,
  * `Home` (document list) and `DocumentDetailPage` retry/fetch logic,
  * `handleFileSelect` from the upload page,
  * the Chunker, which exists only in the spec (the backend is not part of
    the checked sources) and is therefore modelled from the spec text.

JavaScript truthiness of nullable numbers/strings is modelled explicitly
(`numFalsy`, `strFalsy`), since several guards in the source are truthiness
checks rather than null checks.
-/

namespace DocChat

/-! ## Chat page data model (ChatContent) -/

/-- A source citation attached to an assistant message.  The TypeScript
interface has a string `type` field and optional kind-specific fields; the
similarity score (a JS number) is modelled as a rational. -/
structure Source where
  type : String
  content : Option String := none
  url : Option String := none
  caption : Option String := none
  page : Option Int := none
  score : Option Rat := none
deriving Repr, DecidableEq

/-- A chat message as kept in the `messages` React state. -/
structure ChatMessage where
  id : Int
  role : String
  content : String
  sources : Option (List Source) := none
  created_at : String
deriving Repr, DecidableEq

/-- The JSON body sent to the chat endpoint.  In the source the document id
is `parseInt(documentId)` of the raw query-string value when that value is
truthy, and `null` otherwise; we carry the raw string, presence/absence
being the faithful part. -/
structure ChatRequest where
  message : String
  conversation_id : Option Int
  document_id : Option String
deriving Repr, DecidableEq

/-- The React state of the chat page that `sendMessage` reads and writes. -/
structure ChatState where
  messages : List ChatMessage
  input : String
  loading : Bool
  conversationId : Option Int
deriving Repr, DecidableEq

/-- JS `String.prototype.trim`: drops leading and trailing whitespace.
Written over the character list so that concrete instances reduce in the
kernel (the library `String.trim` is defined by well-founded recursion on
byte positions and does not). -/
def jsTrim (s : String) : String :=
  String.mk
    (((s.data.dropWhile Char.isWhitespace).reverse.dropWhile
        Char.isWhitespace).reverse)

/-- JS truthiness test for a value of type `number | null`: `null` and `0`
are falsy.  Used for the `if (!conversationId)` guard of the source. -/
def numFalsy : Option Int → Bool
  | none => true
  | some n => n == 0

/-- JS truthiness test for a value of type `string | null`: `null` and the
empty string are falsy.  Used for `documentId ? ... : null` in the source. -/
def strFalsy : Option String → Bool
  | none => true
  | some s => s == ""

/-- Outcome of the single `fetch` of a chat turn: either the awaited JSON
payload of a response (`conversation_id`, `message_id`, `answer`,
`sources`), or the fetch/json chain threw. -/
inductive FetchOutcome where
  | success (conversation_id : Int) (message_id : Int) (answer : String)
      (sources : Option (List Source))
  | failure
deriving Repr, DecidableEq

/-- The fixed error text appended as an assistant message in the catch
branch of `sendMessage`. -/
def errorText : String :=
  "Sorry, I encountered an error processing your message. Please try again."

/-- Shallow embedding of `sendMessage`.  `documentId` is the raw query-string
value, `outcome` resolves the awaited fetch, `nowU`/`isoU` are the
`Date.now()`/`toISOString()` values at the user-message append and
`nowA`/`isoA` those at the assistant/error append.  Returns the final state
together with the request issued (`none` when the guard returned early). -/
def sendMessage (documentId : Option String) (outcome : FetchOutcome)
    (nowU nowA : Int) (isoU isoA : String) (st : ChatState) :
    ChatState × Option ChatRequest :=
  if jsTrim st.input = "" ∨ st.loading = true then (st, none)
  else
    let userMessage := st.input
    let tempUserMessage : ChatMessage :=
      { id := nowU, role := "user", content := userMessage, created_at := isoU }
    let req : ChatRequest :=
      { message := userMessage
        conversation_id := st.conversationId
        document_id := if strFalsy documentId then none else documentId }
    let stSent : ChatState :=
      { st with input := "", loading := true,
                messages := st.messages ++ [tempUserMessage] }
    match outcome with
    | .success cid mid answer sources =>
        let stCid :=
          if numFalsy stSent.conversationId then
            { stSent with conversationId := some cid }
          else stSent
        let assistantMessage : ChatMessage :=
          { id := mid, role := "assistant", content := answer,
            sources := sources, created_at := isoA }
        ({ stCid with messages := stCid.messages ++ [assistantMessage],
                      loading := false }, some req)
    | .failure =>
        let errMessage : ChatMessage :=
          { id := nowA, role := "assistant", content := errorText,
            created_at := isoA }
        ({ stSent with messages := stSent.messages ++ [errMessage],
                       loading := false }, some req)

/-! ## renderSource -/

/-- The rendering produced by `renderSource` for one citation: an image
card, a table card, or a text card, each with the fields the JSX actually
displays. -/
inductive RenderedSource where
  | imageCard (caption : String) (page : Option Int) (url : Option String)
  | tableCard (caption : String) (page : Option Int) (url : Option String)
  | textCard (content : Option String) (page : Option Int) (score : Option Rat)
deriving Repr, DecidableEq

/-- JS `x || d` on an optional string: the default wins when `x` is absent
or empty. -/
def strOrDefault (x : Option String) (d : String) : String :=
  match x with
  | some s => if s = "" then d else s
  | none => d

/-- `source.page && <span>...</span>`: the page is displayed only when
truthy (present and nonzero). -/
def truthyInt : Option Int → Option Int
  | some n => if n = 0 then none else some n
  | none => none

/-- `source.score && <span>...</span>`: the score is displayed only when
truthy (present and nonzero). -/
def truthyRat : Option Rat → Option Rat
  | some q => if q = 0 then none else some q
  | none => none

/-- Shallow embedding of `renderSource`: successive checks of the `type`
field, returning `null` (here `none`) when no branch matches. -/
def renderSource (s : Source) : Option RenderedSource :=
  if s.type = "image" then
    some (.imageCard (strOrDefault s.caption "Image") (truthyInt s.page) s.url)
  else if s.type = "table" then
    some (.tableCard (strOrDefault s.caption "Table") (truthyInt s.page) s.url)
  else if s.type = "text" then
    some (.textCard s.content (truthyInt s.page) (truthyRat s.score))
  else none

/-! ## Chat composer enabling -/

/-- The `disabled` attribute of the chat textarea:
`disabled={loading || !documentId}`. -/
def chatTextareaDisabled (loading : Bool) (documentId : Option String) : Bool :=
  loading || strFalsy documentId

/-- The `disabled` attribute of the send button:
`disabled={!input.trim() || loading || !documentId}`. -/
def chatSendDisabled (input : String) (loading : Bool)
    (documentId : Option String) : Bool :=
  (jsTrim input == "") || loading || strFalsy documentId

/-! ## Document list (Home) and document detail retry visibility -/

/-- The condition under which the retry button is rendered on the document
list page: `doc.status === 'error' || doc.status === 'pending'`. -/
def homeShowsRetry (status : String) : Bool :=
  status == "error" || status == "pending"

/-- The condition under which the Retry button is rendered on the document
detail page: `document.status === 'error' || document.status === 'pending'`. -/
def detailShowsRetry (status : String) : Bool :=
  status == "error" || status == "pending"

/-! ## Document detail fetch and render -/

/-- The JSON payload stored in the `document` state by the detail page; the
fields of interest here.  A FastAPI 404 body has only `detail` set. -/
structure DocPayload where
  filename : Option String := none
  status : Option String := none
  detail : Option String := none
deriving Repr, DecidableEq

/-- The detail page state touched by `fetchDocument`. -/
structure DetailState where
  document : Option DocPayload
  loading : Bool
deriving Repr, DecidableEq

/-- Outcome of the detail-page fetch: a response whose JSON body parsed
(`ok` is `response.ok`, which the source never consults), or the
fetch/json chain threw. -/
inductive FetchDocResult where
  | httpJson (ok : Bool) (body : DocPayload)
  | thrown
deriving Repr, DecidableEq

/-- Shallow embedding of `fetchDocument`: any parsed JSON body is stored
via `setDocument(data)` regardless of the HTTP status; `finally` clears
`loading`. -/
def fetchDocument (st : DetailState) (r : FetchDocResult) : DetailState :=
  match r with
  | .httpJson _ body => { st with document := some body, loading := false }
  | .thrown => { st with loading := false }

/-- What the detail page renders. -/
inductive DetailRender where
  | loadingSpinner
  | notFound
  | detailView (d : DocPayload)
deriving Repr, DecidableEq

/-- The top-level render branches of `DocumentDetailPage`: the spinner while
`loading`, the explicit not-found state when `document` is null, and the
detail view otherwise. -/
def renderDetailPage (st : DetailState) : DetailRender :=
  if st.loading then .loadingSpinner
  else
    match st.document with
    | none => .notFound
    | some d => .detailView d

/-! ## Upload page: handleFileSelect -/

/-- The pieces of a browser `File` that `handleFileSelect` inspects. -/
structure SelectedFile where
  name : String
  size : Nat
deriving Repr, DecidableEq

/-- The upload-page state touched by `handleFileSelect`. -/
structure UploadState where
  file : Option SelectedFile
  error : Option String
deriving Repr, DecidableEq

/-- Shallow embedding of `handleFileSelect`: reject non-`.pdf` names
(case-insensitively) and files over `50 * 1024 * 1024` bytes, keeping the
previously selected file; otherwise store the file and clear the error. -/
def handleFileSelect (st : UploadState) (f : SelectedFile) : UploadState :=
  if ¬ (f.name.toLower.endsWith ".pdf") then
    { st with error := some "Only PDF files are supported" }
  else if f.size > 50 * 1024 * 1024 then
    { st with error := some "File size must be less than 50MB" }
  else
    { file := some f, error := none }

/-! ## Chunker (spec section 4.1) -/

/-- Modelled from the spec: the Chunker component (spec 4.1) is not among
the checked sources (the backend is absent; only the spec describes it).
Sliding-window split: repeatedly emit the first `size` characters and step
forward by `size - overlap`; a final short remainder is emitted whole, and
empty text yields no chunks.  The step is passed as `step1` with
`step1 + 1 = size - overlap` so the recursion visibly consumes input.
Page tracking is omitted: the reconstruction claim concerns the text
content of the chunks only. -/
def chunkLoop (size step1 : Nat) (text : List Char) : List (List Char) :=
  if h : text.length ≤ size then
    if text = [] then [] else [text]
  else
    text.take size :: chunkLoop size step1 (text.drop (step1 + 1))
termination_by text.length
decreasing_by
  simp only [List.length_drop]
  omega

/-- Modelled from the spec: the Chunker entry point.  A configuration with
`chunk_overlap >= chunk_size` (or a zero window) is a `ConfigurationError`
raised eagerly; otherwise the text is split by the sliding window with step
`chunk_size - chunk_overlap`. -/
def chunk (chunk_size chunk_overlap : Nat) (text : List Char) :
    Except String (List (List Char)) :=
  if chunk_size = 0 ∨ chunk_size ≤ chunk_overlap then
    .error "ConfigurationError"
  else
    .ok (chunkLoop chunk_size (chunk_size - chunk_overlap - 1) text)

/-- Concatenating a chunk sequence with the `overlap`-character prefix of
every chunk after the first removed. -/
def dropOverlaps (overlap : Nat) : List (List Char) → List Char
  | [] => []
  | c :: cs => c ++ (cs.map (List.drop overlap)).flatten

/-- Two adjacent chunks share exactly `overlap` units: the trailing
`overlap` characters of the first equal the leading `overlap` characters
of the second. -/
def sharesOverlap (overlap : Nat) (a b : List Char) : Prop :=
  a.drop (a.length - overlap) = b.take overlap

theorem chunkLoop_cons (size step1 : Nat) (text : List Char) (h : text ≠ []) :
    ∃ rest, chunkLoop size step1 text = text.take size :: rest := by
  by_cases hle : text.length ≤ size
  · refine ⟨[], ?_⟩
    unfold chunkLoop
    simp [hle, h, List.take_of_length_le hle]
  · refine ⟨chunkLoop size step1 (text.drop (step1 + 1)), ?_⟩
    conv_lhs => unfold chunkLoop
    rw [dif_neg hle]

theorem chunkLoop_reconstruct (size overlap : Nat) (hov : overlap < size) :
    ∀ text : List Char,
      dropOverlaps overlap (chunkLoop size (size - overlap - 1) text) = text := by
  have hstep : size - overlap - 1 + 1 = size - overlap := by omega
  suffices H : ∀ (n : Nat) (text : List Char), text.length ≤ n →
      dropOverlaps overlap (chunkLoop size (size - overlap - 1) text) = text by
    intro text
    exact H text.length text le_rfl
  intro n
  induction n with
  | zero =>
    intro t ht
    have : t = [] := List.length_eq_zero.mp (Nat.le_zero.mp ht)
    subst this
    simp [chunkLoop, dropOverlaps]
  | succ n ih =>
    intro t ht
    by_cases hle : t.length ≤ size
    · unfold chunkLoop
      by_cases hnil : t = []
      · simp [hle, hnil, dropOverlaps]
      · simp [hle, hnil, dropOverlaps]
    · have hlen : size < t.length := Nat.lt_of_not_le hle
      have ht' : (t.drop (size - overlap)).length ≤ n := by
        simp only [List.length_drop]
        omega
      have hrec := ih (t.drop (size - overlap)) ht'
      have htne : t.drop (size - overlap) ≠ [] := by
        intro hcon
        have := List.drop_eq_nil_iff.mp hcon
        omega
      obtain ⟨rest, hrest⟩ :=
        chunkLoop_cons size (size - overlap - 1) (t.drop (size - overlap)) htne
      unfold chunkLoop
      rw [dif_neg hle]
      rw [hstep, hrest]
      rw [hrest] at hrec
      -- hrec : dropOverlaps overlap (head :: rest) = t.drop (size - overlap)
      simp only [dropOverlaps, List.map_cons, List.flatten_cons] at hrec ⊢
      -- reduce the goal to dropping `overlap` from both sides of hrec
      have hhead : overlap ≤ ((t.drop (size - overlap)).take size).length := by
        simp only [List.length_take, List.length_drop]
        omega
      have hdrop := congrArg (List.drop overlap) hrec
      rw [List.drop_append_of_le_length hhead] at hdrop
      rw [List.drop_drop] at hdrop
      have hsum : size - overlap + overlap = size := by omega
      rw [hsum] at hdrop
      rw [hdrop]
      exact List.take_append_drop size t

theorem chunkLoop_chain (size overlap : Nat) (hov : overlap < size) :
    ∀ text : List Char,
      (chunkLoop size (size - overlap - 1) text).Chain'
        (sharesOverlap overlap) := by
  have hstep : size - overlap - 1 + 1 = size - overlap := by omega
  suffices H : ∀ (n : Nat) (text : List Char), text.length ≤ n →
      (chunkLoop size (size - overlap - 1) text).Chain'
        (sharesOverlap overlap) by
    intro text
    exact H text.length text le_rfl
  intro n
  induction n with
  | zero =>
    intro t ht
    have : t = [] := List.length_eq_zero.mp (Nat.le_zero.mp ht)
    subst this
    simp [chunkLoop]
  | succ n ih =>
    intro t ht
    by_cases hle : t.length ≤ size
    · unfold chunkLoop
      by_cases hnil : t = [] <;> simp [hle, hnil]
    · have hlen : size < t.length := Nat.lt_of_not_le hle
      have ht' : (t.drop (size - overlap)).length ≤ n := by
        simp only [List.length_drop]
        omega
      have hrec := ih (t.drop (size - overlap)) ht'
      have htne : t.drop (size - overlap) ≠ [] := by
        intro hcon
        have := List.drop_eq_nil_iff.mp hcon
        omega
      obtain ⟨rest, hrest⟩ :=
        chunkLoop_cons size (size - overlap - 1) (t.drop (size - overlap)) htne
      unfold chunkLoop
      rw [dif_neg hle]
      rw [hstep, hrest]
      rw [hrest] at hrec
      refine List.chain'_cons'.mpr ⟨?_, hrec⟩
      intro b hb
      simp only [List.head?_cons, Option.mem_def, Option.some.injEq] at hb
      subst hb
      unfold sharesOverlap
      have hlt : (t.take size).length = size := by
        simp only [List.length_take]
        omega
      rw [hlt, List.drop_take, List.take_take]
      have h1 : size - (size - overlap) = overlap := by omega
      have h2 : min overlap size = overlap := by omega
      rw [h1, h2]

/-! ## Shared helper lemmas -/

/-- The final state of a successful chat turn whose guard passed: the user
message and the assistant message are appended in that order, the input is
cleared, loading is cleared, and the conversation id is adopted exactly
when the previous one was falsy. -/
theorem sendMessage_success_step (d : Option String) (cid mid nU nA : Int)
    (iU iA ans : String) (s : Option (List Source)) (st : ChatState)
    (hin : jsTrim st.input ≠ "") (hld : st.loading = false) :
    (sendMessage d (.success cid mid ans s) nU nA iU iA st).1 =
      { messages := st.messages ++
          [{ id := nU, role := "user", content := st.input, created_at := iU },
           { id := mid, role := "assistant", content := ans, sources := s,
             created_at := iA }],
        input := "", loading := false,
        conversationId :=
          if numFalsy st.conversationId then some cid else st.conversationId } := by
  unfold sendMessage
  rw [if_neg (by simp [hin, hld])]
  by_cases hc : numFalsy st.conversationId <;> simp [hc]

/-! ## Claim theorems -/

/-- Claim C8: for all text inputs, concatenating the Chunker's output with
the overlaps removed reconstructs the original text exactly (full coverage,
no gaps), and every pair of adjacent chunks shares exactly `chunk_overlap`
units of trailing/leading content. -/
theorem chunker_reconstructs (chunk_size chunk_overlap : Nat)
    (text : List Char) (h : chunk_overlap < chunk_size) :
    ∃ chunks, chunk chunk_size chunk_overlap text = .ok chunks
      ∧ dropOverlaps chunk_overlap chunks = text
      ∧ chunks.Chain' (sharesOverlap chunk_overlap) := by
  refine ⟨chunkLoop chunk_size (chunk_size - chunk_overlap - 1) text, ?_, ?_, ?_⟩
  · unfold chunk
    rw [if_neg (by omega)]
  · exact chunkLoop_reconstruct _ _ h text
  · exact chunkLoop_chain _ _ h text

/-- Witness for C8 at `chunk_size = 3`, `chunk_overlap = 1`, text "abcde". -/
theorem chunker_reconstructs_witness :
    (1 < 3) ∧
      ∃ chunks, chunk 3 1 "abcde".toList = .ok chunks
        ∧ dropOverlaps 1 chunks = "abcde".toList
        ∧ chunks.Chain' (sharesOverlap 1) :=
  ⟨by decide, chunker_reconstructs 3 1 "abcde".toList (by decide)⟩

/-- Claim C10: when the trimmed input is empty or a request is already in
flight, `sendMessage` returns at once: no request is issued and the state
(messages, conversationId, input, loading) is unchanged. -/
theorem sendMessage_guard_noop (documentId : Option String) (o : FetchOutcome)
    (nowU nowA : Int) (isoU isoA : String) (st : ChatState)
    (h : jsTrim st.input = "" ∨ st.loading = true) :
    sendMessage documentId o nowU nowA isoU isoA st = (st, none) := by
  unfold sendMessage
  rw [if_pos h]

/-- Witness for C10 at a concrete idle state with whitespace-only input. -/
theorem sendMessage_guard_noop_witness :
    sendMessage none .failure 0 0 "" ""
        { messages := [], input := "   ", loading := false,
          conversationId := none } =
      ({ messages := [], input := "   ", loading := false,
         conversationId := none }, none) :=
  sendMessage_guard_noop none .failure 0 0 "" "" _ (Or.inl (by decide))

/-- Claim C5: when the chat request fails, the client appends an
assistant-role message holding the fixed non-empty error text (after the
user message), and loading is reset to false whether the turn succeeds or
fails. -/
theorem sendMessage_failure_error_message (documentId : Option String)
    (nowU nowA : Int) (isoU isoA : String) (st : ChatState)
    (h : ¬(jsTrim st.input = "" ∨ st.loading = true)) :
    (sendMessage documentId .failure nowU nowA isoU isoA st).1.messages =
        st.messages ++
          [{ id := nowU, role := "user", content := st.input, created_at := isoU },
           { id := nowA, role := "assistant", content := errorText,
             created_at := isoA }]
    ∧ errorText ≠ ""
    ∧ (∀ o : FetchOutcome,
        ((sendMessage documentId o nowU nowA isoU isoA st).1).loading = false) := by
  refine ⟨?_, by decide, ?_⟩
  · unfold sendMessage
    rw [if_neg h]
    simp
  · intro o
    unfold sendMessage
    rw [if_neg h]
    cases o with
    | success cid mid answer sources =>
      by_cases hc : numFalsy st.conversationId <;> simp [hc]
    | failure => simp

/-- Witness for C5 at a concrete idle state with input "hi". -/
theorem sendMessage_failure_error_message_witness :
    ((sendMessage none .failure 1 2 "t1" "t2"
        { messages := [], input := "hi", loading := false,
          conversationId := none }).1.messages =
      [] ++
        [{ id := 1, role := "user", content := "hi", created_at := "t1" },
         { id := 2, role := "assistant", content := errorText,
           created_at := "t2" }])
    ∧ errorText ≠ ""
    ∧ (∀ o : FetchOutcome,
        ((sendMessage none o 1 2 "t1" "t2"
          { messages := [], input := "hi", loading := false,
            conversationId := none }).1).loading = false) :=
  sendMessage_failure_error_message none 1 2 "t1" "t2"
    { messages := [], input := "hi", loading := false, conversationId := none }
    (by decide)

/-- Claim C1: every successful chat turn appends exactly the user message
followed by the assistant message at the end of the history, leaving every
prior message unchanged, and two sequential successful turns from an empty
history yield exactly 4 messages (2 user, 2 assistant) in append order. -/
theorem chat_two_turns_history (documentId : Option String)
    (q1 q2 a1 a2 : String) (cid1 cid2 mid1 mid2 n1 n2 n3 n4 : Int)
    (i1 i2 i3 i4 : String) (s1 s2 : Option (List Source))
    (h1 : jsTrim q1 ≠ "") (h2 : jsTrim q2 ≠ "") :
    (∀ (d : Option String) (cid mid nU nA : Int) (iU iA ans : String)
        (s : Option (List Source)) (st : ChatState),
        jsTrim st.input ≠ "" → st.loading = false →
        (sendMessage d (.success cid mid ans s) nU nA iU iA st).1.messages =
          st.messages ++
            [{ id := nU, role := "user", content := st.input, created_at := iU },
             { id := mid, role := "assistant", content := ans, sources := s,
               created_at := iA }])
    ∧ ((sendMessage documentId (.success cid2 mid2 a2 s2) n3 n4 i3 i4
          { (sendMessage documentId (.success cid1 mid1 a1 s1) n1 n2 i1 i2
              { messages := [], input := q1, loading := false,
                conversationId := none }).1
            with input := q2 }).1).messages =
        [{ id := n1, role := "user", content := q1, created_at := i1 },
         { id := mid1, role := "assistant", content := a1, sources := s1,
           created_at := i2 },
         { id := n3, role := "user", content := q2, created_at := i3 },
         { id := mid2, role := "assistant", content := a2, sources := s2,
           created_at := i4 }]
    ∧ (((sendMessage documentId (.success cid2 mid2 a2 s2) n3 n4 i3 i4
          { (sendMessage documentId (.success cid1 mid1 a1 s1) n1 n2 i1 i2
              { messages := [], input := q1, loading := false,
                conversationId := none }).1
            with input := q2 }).1).messages.map ChatMessage.role) =
        ["user", "assistant", "user", "assistant"] := by
  refine ⟨?_, ?_, ?_⟩
  · intro d cid mid nU nA iU iA ans s st hin hld
    rw [sendMessage_success_step d cid mid nU nA iU iA ans s st hin hld]
  · rw [sendMessage_success_step documentId cid1 mid1 n1 n2 i1 i2 a1 s1 _ h1 rfl]
    rw [sendMessage_success_step documentId cid2 mid2 n3 n4 i3 i4 a2 s2 _ h2 rfl]
    simp
  · rw [sendMessage_success_step documentId cid1 mid1 n1 n2 i1 i2 a1 s1 _ h1 rfl]
    rw [sendMessage_success_step documentId cid2 mid2 n3 n4 i3 i4 a2 s2 _ h2 rfl]
    simp

/-- Witness for C1 at two concrete turns "hello" / "and more". -/
theorem chat_two_turns_history_witness :
    (∀ (d : Option String) (cid mid nU nA : Int) (iU iA ans : String)
        (s : Option (List Source)) (st : ChatState),
        jsTrim st.input ≠ "" → st.loading = false →
        (sendMessage d (.success cid mid ans s) nU nA iU iA st).1.messages =
          st.messages ++
            [{ id := nU, role := "user", content := st.input, created_at := iU },
             { id := mid, role := "assistant", content := ans, sources := s,
               created_at := iA }])
    ∧ ((sendMessage none (.success 1 12 "second answer" none) 3 4 "t3" "t4"
          { (sendMessage none (.success 1 11 "first answer" none) 1 2 "t1" "t2"
              { messages := [], input := "hello", loading := false,
                conversationId := none }).1
            with input := "and more" }).1).messages =
        [{ id := 1, role := "user", content := "hello", created_at := "t1" },
         { id := 11, role := "assistant", content := "first answer",
           sources := none, created_at := "t2" },
         { id := 3, role := "user", content := "and more", created_at := "t3" },
         { id := 12, role := "assistant", content := "second answer",
           sources := none, created_at := "t4" }]
    ∧ (((sendMessage none (.success 1 12 "second answer" none) 3 4 "t3" "t4"
          { (sendMessage none (.success 1 11 "first answer" none) 1 2 "t1" "t2"
              { messages := [], input := "hello", loading := false,
                conversationId := none }).1
            with input := "and more" }).1).messages.map ChatMessage.role) =
        ["user", "assistant", "user", "assistant"] :=
  chat_two_turns_history none "hello" "and more" "first answer" "second answer"
    1 1 11 12 1 2 3 4 "t1" "t2" "t3" "t4" none none
    (by decide) (by decide)

/-- Claim C2 counterexample: `setConversationId` is guarded by JS
truthiness, not nullity, so a conversation id of `0` adopted from the first
response is reassigned by the next successful response — `conversationId`
is not "never reassigned once set". -/
theorem conversationId_zero_reassigned :
    (((sendMessage none (.success 0 10 "first" none) 1 2 "t1" "t2"
        { messages := [], input := "hi", loading := false,
          conversationId := none }).1).conversationId = some 0)
    ∧ (((sendMessage none (.success 7 11 "second" none) 3 4 "t3" "t4"
        { (sendMessage none (.success 0 10 "first" none) 1 2 "t1" "t2"
            { messages := [], input := "hi", loading := false,
              conversationId := none }).1
          with input := "again" }).1).conversationId = some 7) := by
  refine ⟨?_, ?_⟩
  · rw [sendMessage_success_step none 0 10 1 2 "t1" "t2" "first" none _
        (by decide) rfl]
    simp [numFalsy]
  · rw [sendMessage_success_step none 0 10 1 2 "t1" "t2" "first" none _
        (by decide) rfl]
    rw [sendMessage_success_step none 7 11 3 4 "t3" "t4" "second" none _
        (by decide) rfl]
    simp [numFalsy]

/-- Claim C2 (amended): with no conversation id, the request carries a null
`conversation_id` and the id of the first successful response is adopted;
every request carries the current `conversationId`; and once
`conversationId` holds a nonzero id it is never reassigned (an id of 0 is
falsy for the source's guard and may be overwritten). -/
theorem conversationId_adoption (documentId : Option String)
    (o : FetchOutcome) (nowU nowA : Int) (isoU isoA : String) (st : ChatState)
    (h : ¬(jsTrim st.input = "" ∨ st.loading = true)) :
    (sendMessage documentId o nowU nowA isoU isoA st).2 =
        some { message := st.input,
               conversation_id := st.conversationId,
               document_id := if strFalsy documentId then none else documentId }
    ∧ (∀ (cid mid : Int) (ans : String) (s : Option (List Source)),
        st.conversationId = none → o = .success cid mid ans s →
        ((sendMessage documentId o nowU nowA isoU isoA st).1).conversationId =
          some cid)
    ∧ (∀ c : Int, st.conversationId = some c → c ≠ 0 →
        ((sendMessage documentId o nowU nowA isoU isoA st).1).conversationId =
          some c) := by
  refine ⟨?_, ?_, ?_⟩
  · unfold sendMessage
    rw [if_neg h]
    cases o <;> simp
  · intro cid mid ans s hnone ho
    subst ho
    unfold sendMessage
    rw [if_neg h]
    simp [numFalsy, hnone]
  · intro c hc hc0
    unfold sendMessage
    rw [if_neg h]
    cases o with
    | success cid mid answer sources => simp [numFalsy, hc, hc0]
    | failure => simp [hc]

/-- Witness for the amended C2 at a concrete first turn. -/
theorem conversationId_adoption_witness :
    ((sendMessage none (.success 5 6 "ans" none) 1 2 "t1" "t2"
        { messages := [], input := "hi", loading := false,
          conversationId := none }).2 =
      some { message := "hi", conversation_id := none,
             document_id := if strFalsy none then none else none })
    ∧ (∀ (cid mid : Int) (ans : String) (s : Option (List Source)),
        (none : Option Int) = none →
        (FetchOutcome.success 5 6 "ans" none) = .success cid mid ans s →
        ((sendMessage none (.success 5 6 "ans" none) 1 2 "t1" "t2"
          { messages := [], input := "hi", loading := false,
            conversationId := none }).1).conversationId = some cid)
    ∧ (∀ c : Int, (none : Option Int) = some c → c ≠ 0 →
        ((sendMessage none (.success 5 6 "ans" none) 1 2 "t1" "t2"
          { messages := [], input := "hi", loading := false,
            conversationId := none }).1).conversationId = some c) :=
  conversationId_adoption none (.success 5 6 "ans" none) 1 2 "t1" "t2"
    { messages := [], input := "hi", loading := false, conversationId := none }
    (by decide)

/-- Claim C3: `renderSource` is a tagged dispatch on the `type` field: it
produces a rendering exactly for the types "text", "image" and "table" —
a text card with content, page and score, an image/table card with caption,
page and artifact URL — and null for any other type. -/
theorem renderSource_tagged (s : Source) :
    ((renderSource s).isSome ↔
        (s.type = "text" ∨ s.type = "image" ∨ s.type = "table"))
    ∧ (s.type = "image" →
        renderSource s =
          some (.imageCard (strOrDefault s.caption "Image") (truthyInt s.page)
            s.url))
    ∧ (s.type = "table" →
        renderSource s =
          some (.tableCard (strOrDefault s.caption "Table") (truthyInt s.page)
            s.url))
    ∧ (s.type = "text" →
        renderSource s =
          some (.textCard s.content (truthyInt s.page) (truthyRat s.score)))
    ∧ (s.type ≠ "text" → s.type ≠ "image" → s.type ≠ "table" →
        renderSource s = none) := by
  unfold renderSource
  by_cases h1 : s.type = "image" <;> by_cases h2 : s.type = "table" <;>
    by_cases h3 : s.type = "text" <;> simp_all

/-- Claim C4 counterexample: with no document id supplied the chat composer
is disabled — the send button and the textarea are both disabled even for a
nonempty, non-loading input — so the user cannot compose and send an
unscoped message. -/
theorem unscoped_compose_disabled :
    chatSendDisabled "What is this document about?" false none = true
    ∧ chatTextareaDisabled false none = true
    ∧ jsTrim "What is this document about?" ≠ "" := by
  refine ⟨by decide, by decide, by decide⟩

/-- Claim C4 (amended): `sendMessage` itself, invoked with no document id,
issues the request with a null `document_id` (the request layer supports
unscoped conversations), but the textarea and the send button are disabled
whenever no document id is supplied, so the UI never lets the user send in
that state. -/
theorem sendMessage_null_document_id (o : FetchOutcome) (nowU nowA : Int)
    (isoU isoA : String) (st : ChatState)
    (h : ¬(jsTrim st.input = "" ∨ st.loading = true)) :
    (sendMessage none o nowU nowA isoU isoA st).2 =
        some { message := st.input, conversation_id := st.conversationId,
               document_id := none }
    ∧ (∀ l : Bool, chatTextareaDisabled l none = true)
    ∧ (∀ (i : String) (l : Bool), chatSendDisabled i l none = true) := by
  refine ⟨?_, ?_, ?_⟩
  · unfold sendMessage
    rw [if_neg h]
    cases o <;> simp [strFalsy]
  · intro l
    simp [chatTextareaDisabled, strFalsy]
  · intro i l
    simp [chatSendDisabled, strFalsy]

/-- Witness for the amended C4 at a concrete state. -/
theorem sendMessage_null_document_id_witness :
    ((sendMessage none .failure 1 2 "t1" "t2"
        { messages := [], input := "hi", loading := false,
          conversationId := none }).2 =
      some { message := "hi", conversation_id := none, document_id := none })
    ∧ (∀ l : Bool, chatTextareaDisabled l none = true)
    ∧ (∀ (i : String) (l : Bool), chatSendDisabled i l none = true) :=
  sendMessage_null_document_id .failure 1 2 "t1" "t2"
    { messages := [], input := "hi", loading := false, conversationId := none }
    (by decide)

/-- Claim C6: the retry action is rendered exactly when the document status
is "error" or "pending" — never for "processing" or "completed" — on both
the document list page and the document detail page. -/
theorem retry_visible_iff (s : String) :
    (homeShowsRetry s = true ↔ (s = "error" ∨ s = "pending"))
    ∧ (detailShowsRetry s = true ↔ (s = "error" ∨ s = "pending"))
    ∧ homeShowsRetry "processing" = false
    ∧ homeShowsRetry "completed" = false
    ∧ detailShowsRetry "processing" = false
    ∧ detailShowsRetry "completed" = false := by
  refine ⟨?_, ?_, by decide, by decide, by decide, by decide⟩ <;>
    simp [homeShowsRetry, detailShowsRetry]

/-- Claim C7, evaluated at the failing input: a not-found response whose
JSON body parses (the FastAPI 404 payload) is stored by `fetchDocument` as
if it were a document — `response.ok` is never consulted — so the page
renders the detail view on the payload instead of the explicit
'Document not found' state. -/
theorem notFound_payload_rendered_as_document :
    (fetchDocument { document := none, loading := true }
        (.httpJson false { detail := some "Document not found" }) =
      { document := some { detail := some "Document not found" },
        loading := false })
    ∧ (renderDetailPage
        (fetchDocument { document := none, loading := true }
          (.httpJson false { detail := some "Document not found" })) =
      .detailView { detail := some "Document not found" })
    ∧ (renderDetailPage
        (fetchDocument { document := none, loading := true }
          (.httpJson false { detail := some "Document not found" })) ≠
      .notFound) := by
  refine ⟨rfl, rfl, by decide⟩

/-- Claim C9: `handleFileSelect` accepts a file (stores it and clears the
error) exactly when its lowercased name ends in ".pdf" and its size is at
most 52428800 bytes; rejection keeps the previously selected file and sets
the corresponding error message. -/
theorem handleFileSelect_accepts_iff (st : UploadState) (f : SelectedFile) :
    (handleFileSelect st f = { file := some f, error := none } ↔
        (f.name.toLower.endsWith ".pdf" = true ∧ f.size ≤ 52428800))
    ∧ (f.name.toLower.endsWith ".pdf" = true → 52428800 < f.size →
        handleFileSelect st f =
          { st with error := some "File size must be less than 50MB" })
    ∧ (¬ f.name.toLower.endsWith ".pdf" = true →
        handleFileSelect st f =
          { st with error := some "Only PDF files are supported" }) := by
  unfold handleFileSelect
  by_cases hp : f.name.toLower.endsWith ".pdf" = true <;>
    by_cases hs : f.size > 50 * 1024 * 1024 <;>
      refine ⟨?_, ?_, ?_⟩ <;>
        simp_all [UploadState.mk.injEq]

end DocChat
